import Mathlib

/-!
Shallow embedding of the Instagram-story image conversion library
(two variants of `convertToStorySize`: crop-fill and blur-pad-fit,
sharing validation, naming and orchestration code).

JavaScript numbers used in the rectangle geometry are modelled as
exact rationals; file sizes are naturals; pixel dimensions are
rationals so that zero and negative values can be discussed.
External platform effects (decode, canvas context availability,
JPEG encode) are modelled as oracles passed to the orchestrator.
-/

namespace StoryImage

/-- Output width constant, 1080 px. -/
def OUTPUT_WIDTH : ℚ := 1080

/-- Output height constant, 1920 px. -/
def OUTPUT_HEIGHT : ℚ := 1920

/-- Background blur radius used by the blur-pad variant, 30 px. -/
def BLUR_AMOUNT : ℚ := 30

/-- Maximum accepted file size in bytes, 10 MiB. -/
def MAX_FILE_SIZE : ℕ := 10 * 1024 * 1024

/-- Maximum accepted pixel dimension. -/
def MAX_PIXEL_DIMENSION : ℚ := 4096

/-- Declared MIME types the validator accepts. -/
def ALLOWED_MIME_TYPES : List String := ["image/jpeg", "image/png"]

/-- Tagged error taxonomy of the library. -/
inductive ConversionError where
  | NO_FILE
  | FILE_TOO_LARGE (maxSize actualSize : ℕ)
  | INVALID_MIME_TYPE (allowed : List String) (actual : String)
  | PIXEL_EXCEEDED (maxDimension width height : ℚ)
  | DECODE_FAILED (message : String)
  | CONVERSION_FAILED (message : String)
deriving DecidableEq

/-- Raw input file: byte size and declared MIME type. -/
structure FileInput where
  size : ℕ
  type : String
deriving DecidableEq

/-- Decoded bitmap: integer pixel grid, modelled with rational dimensions. -/
structure Bitmap where
  width : ℚ
  height : ℚ
deriving DecidableEq

/-- File validation: size ceiling first, then exact MIME membership. -/
def validateFile (file : FileInput) : Option ConversionError :=
  if file.size > MAX_FILE_SIZE then
    some (.FILE_TOO_LARGE MAX_FILE_SIZE file.size)
  else if ¬ (ALLOWED_MIME_TYPES.contains file.type) then
    some (.INVALID_MIME_TYPE ALLOWED_MIME_TYPES file.type)
  else
    none

/-- Pixel-dimension validation: either dimension above the ceiling is rejected. -/
def validateDimensions (width height : ℚ) : Option ConversionError :=
  if width > MAX_PIXEL_DIMENSION ∨ height > MAX_PIXEL_DIMENSION then
    some (.PIXEL_EXCEEDED MAX_PIXEL_DIMENSION width height)
  else
    none

/-- Axis-aligned rectangle with rational coordinates. -/
structure Rect where
  x : ℚ
  y : ℚ
  width : ℚ
  height : ℚ
deriving DecidableEq

/-- One drawImage call: source rectangle, destination rectangle, and whether
the blur filter was active. -/
structure DrawOp where
  src : Rect
  dst : Rect
  blur : Bool
deriving DecidableEq

/-- Canvas produced by a compositor: its size and the ordered draw calls. -/
structure Canvas where
  width : ℚ
  height : ℚ
  ops : List DrawOp
deriving DecidableEq

namespace CropFill

/-- Source crop rectangle of the crop-fill variant: cover-rule selection,
centered on the trimmed axis. -/
def srcRect (sourceWidth sourceHeight : ℚ) : Rect :=
  let outputAspect := OUTPUT_WIDTH / OUTPUT_HEIGHT
  let inputAspect := sourceWidth / sourceHeight
  if inputAspect > outputAspect then
    { x := (sourceWidth - sourceHeight * outputAspect) / 2
      y := 0
      width := sourceHeight * outputAspect
      height := sourceHeight }
  else
    { x := 0
      y := (sourceHeight - sourceWidth / outputAspect) / 2
      width := sourceWidth
      height := sourceWidth / outputAspect }

/-- Crop-fill compositor: a 1080-by-1920 canvas with a single unblurred draw
of the crop rectangle onto the full destination. Throws when no 2d context
is available. -/
def convertToStorySize (ctxOk : Bool) (bitmap : Bitmap) :
    Except String Canvas :=
  if ctxOk then
    .ok { width := OUTPUT_WIDTH
          height := OUTPUT_HEIGHT
          ops := [{ src := srcRect bitmap.width bitmap.height
                    dst := { x := 0, y := 0
                             width := OUTPUT_WIDTH, height := OUTPUT_HEIGHT }
                    blur := false }] }
  else
    .error "Canvas context not available"

end CropFill

namespace BlurPad

/-- Background crop rectangle of the blur-pad variant (cover-rule selection,
written out in that file's own code). -/
def bgSrcRect (sourceWidth sourceHeight : ℚ) : Rect :=
  let outputAspect := OUTPUT_WIDTH / OUTPUT_HEIGHT
  let inputAspect := sourceWidth / sourceHeight
  if inputAspect > outputAspect then
    { x := (sourceWidth - sourceHeight * outputAspect) / 2
      y := 0
      width := sourceHeight * outputAspect
      height := sourceHeight }
  else
    { x := 0
      y := (sourceHeight - sourceWidth / outputAspect) / 2
      width := sourceWidth
      height := sourceWidth / outputAspect }

/-- Foreground destination rectangle of the blur-pad variant: contain-rule
fit of the whole source, centered on the canvas. -/
def fgDestRect (sourceWidth sourceHeight : ℚ) : Rect :=
  let outputAspect := OUTPUT_WIDTH / OUTPUT_HEIGHT
  let inputAspect := sourceWidth / sourceHeight
  let fgDestWidth :=
    if inputAspect > outputAspect then OUTPUT_WIDTH
    else OUTPUT_HEIGHT * inputAspect
  let fgDestHeight :=
    if inputAspect > outputAspect then OUTPUT_WIDTH / inputAspect
    else OUTPUT_HEIGHT
  { x := (OUTPUT_WIDTH - fgDestWidth) / 2
    y := (OUTPUT_HEIGHT - fgDestHeight) / 2
    width := fgDestWidth
    height := fgDestHeight }

/-- Blur-pad compositor: blurred background draw (overdrawn by the blur
radius on every side) followed by the sharp contained foreground draw.
Throws when no 2d context is available. -/
def convertToStorySize (ctxOk : Bool) (bitmap : Bitmap) :
    Except String Canvas :=
  if ctxOk then
    .ok { width := OUTPUT_WIDTH
          height := OUTPUT_HEIGHT
          ops := [{ src := bgSrcRect bitmap.width bitmap.height
                    dst := { x := -BLUR_AMOUNT, y := -BLUR_AMOUNT
                             width := OUTPUT_WIDTH + BLUR_AMOUNT * 2
                             height := OUTPUT_HEIGHT + BLUR_AMOUNT * 2 }
                    blur := true },
                  { src := { x := 0, y := 0
                             width := bitmap.width, height := bitmap.height }
                    dst := fgDestRect bitmap.width bitmap.height
                    blur := false }] }
  else
    .error "Canvas context not available"

end BlurPad

/-- Layout mode selecting one of the two compositor variants. -/
inductive Mode where
  | cropFill
  | blurPadFit
deriving DecidableEq

/-- Dispatch to the selected compositor variant. -/
def composite (mode : Mode) (ctxOk : Bool) (bitmap : Bitmap) :
    Except String Canvas :=
  match mode with
  | .cropFill => CropFill.convertToStorySize ctxOk bitmap
  | .blurPadFit => BlurPad.convertToStorySize ctxOk bitmap

/-- Local timestamp components as the platform date object reports them;
month0 is the zero-based month. -/
structure DateParts where
  year : ℕ
  month0 : ℕ
  day : ℕ
  hour : ℕ
  minute : ℕ
  second : ℕ
deriving DecidableEq

/-- String.padStart semantics: left-pad with a fill character up to the
target length, unchanged when already long enough. -/
def padStart (s : String) (targetLength : ℕ) (c : Char) : String :=
  if targetLength ≤ s.length then s
  else String.mk (List.replicate (targetLength - s.length) c) ++ s

/-- Two-digit zero padding helper used by the filename generator. -/
def pad (n : ℕ) : String := padStart (Nat.repr n) 2 '0'

/-- Filename generator: story_yyyyMMdd_HHmmss.jpg from the local timestamp. -/
def generateFilename (now : DateParts) : String :=
  let dateStr := Nat.repr now.year ++ pad (now.month0 + 1) ++ pad now.day
  let timeStr := pad now.hour ++ pad now.minute ++ pad now.second
  "story_" ++ dateStr ++ "_" ++ timeStr ++ ".jpg"

/-- Result of the whole conversion: an encoded blob is opaque, so success
carries only the generated filename. -/
inductive ConversionResult where
  | success (filename : String)
  | failure (error : ConversionError)
deriving DecidableEq

/-- Observable outcome of one convertImage call: its result, how many times
bitmap.close() ran, and whether the compositor was invoked. -/
structure RunTrace where
  result : ConversionResult
  closeCount : ℕ
  compositorInvoked : Bool
deriving DecidableEq

/-- Orchestrator convertImage, identical in both source variants up to the
compositor it calls. Platform effects are oracles: decodeResult is what
createImageBitmap would yield, ctxOk whether a 2d context is available,
encodeOk whether toBlob produces a blob. -/
def convertImage (mode : Mode) (file : Option FileInput)
    (decodeResult : Except String Bitmap) (ctxOk encodeOk : Bool)
    (now : DateParts) : RunTrace :=
  match file with
  | none => ⟨.failure .NO_FILE, 0, false⟩
  | some f =>
    match validateFile f with
    | some e => ⟨.failure e, 0, false⟩
    | none =>
      match decodeResult with
      | .error msg => ⟨.failure (.DECODE_FAILED msg), 0, false⟩
      | .ok bitmap =>
        match validateDimensions bitmap.width bitmap.height with
        | some e => ⟨.failure e, 1, false⟩
        | none =>
          match composite mode ctxOk bitmap with
          | .error msg => ⟨.failure (.CONVERSION_FAILED msg), 0, true⟩
          | .ok _canvas =>
            if encodeOk then ⟨.success (generateFilename now), 1, true⟩
            else ⟨.failure (.CONVERSION_FAILED "Failed to create blob"), 1, true⟩

/-- Spec-level description of a two-digit zero-padded numeric field. -/
def twoDigitField (n : ℕ) : String :=
  if n < 10 then "0" ++ Nat.repr n else Nat.repr n

/-- C4: for every pair of source dimensions, the background crop rectangle of
the blur-pad-fit compositor equals the crop rectangle of the crop-fill
compositor. -/
theorem bgSrcRect_eq_cropFill_srcRect (w h : ℚ) :
    BlurPad.bgSrcRect w h = CropFill.srcRect w h := rfl

/-- C8: in crop-fill mode, a source whose aspect ratio equals exactly
1080/1920 gets a crop rectangle equal to the entire source: nothing is
cropped. -/
theorem cropFill_srcRect_full_of_aspect_eq (w h : ℚ) (hh : 0 < h)
    (hasp : w / h = 1080 / 1920) :
    CropFill.srcRect w h = ⟨0, 0, w, h⟩ := by
  have hne : h ≠ 0 := ne_of_gt hh
  have hw : w = h * (9 / 16) := by
    have : w / h = 9 / 16 := by rw [hasp]; norm_num
    field_simp at this
    linarith
  simp only [CropFill.srcRect, OUTPUT_WIDTH, OUTPUT_HEIGHT]
  have hcond : ¬ (w / h > (1080 : ℚ) / 1920) := by
    rw [hasp]; exact lt_irrefl _
  rw [if_neg hcond]
  have hdiv : w / ((1080 : ℚ) / 1920) = h := by
    rw [hw]; field_simp; ring
  rw [hdiv]
  simp

/-- Witness for C8 at the concrete 1080-by-1920 source. -/
theorem cropFill_srcRect_full_witness :
    CropFill.srcRect 1080 1920 = ⟨0, 0, 1080, 1920⟩ :=
  cropFill_srcRect_full_of_aspect_eq 1080 1920 (by norm_num) (by norm_num)

/-- C1: crop-fill mode selects the cover-rule source rectangle, whose aspect
ratio is exactly 1080/1920, and composes onto a canvas of exactly
1080 by 1920. -/
theorem cropFill_cover_selection (w h : ℚ) (hw : 0 < w) (hh : 0 < h) :
    (CropFill.convertToStorySize true ⟨w, h⟩ =
      Except.ok ⟨1080, 1920,
        [⟨CropFill.srcRect w h, ⟨0, 0, 1080, 1920⟩, false⟩]⟩)
    ∧ (CropFill.srcRect w h).width / (CropFill.srcRect w h).height
        = 1080 / 1920
    ∧ (if w / h > 1080 / 1920 then
        CropFill.srcRect w h =
          ⟨(w - h * (1080 / 1920)) / 2, 0, h * (1080 / 1920), h⟩
      else
        CropFill.srcRect w h =
          ⟨0, (h - w / (1080 / 1920)) / 2, w, w / (1080 / 1920)⟩) := by
  have hwne : w ≠ 0 := ne_of_gt hw
  have hhne : h ≠ 0 := ne_of_gt hh
  refine ⟨?_, ?_, ?_⟩
  · simp [CropFill.convertToStorySize, OUTPUT_WIDTH, OUTPUT_HEIGHT]
  · simp only [CropFill.srcRect, OUTPUT_WIDTH, OUTPUT_HEIGHT]
    split_ifs with hc
    · show h * (1080 / 1920) / h = 1080 / 1920
      rw [mul_comm, mul_div_assoc, div_self hhne, mul_one]
    · show w / (w / (1080 / 1920)) = 1080 / 1920
      rw [div_div_eq_mul_div, mul_comm, mul_div_assoc, div_self hwne,
        mul_one]
  · simp only [CropFill.srcRect, OUTPUT_WIDTH, OUTPUT_HEIGHT]
    split_ifs with hc
    · rfl
    · rfl

/-- Witness for C1 at a concrete 4000-by-2000 source. -/
theorem cropFill_cover_selection_witness :
    (CropFill.convertToStorySize true ⟨4000, 2000⟩ =
      Except.ok ⟨1080, 1920,
        [⟨CropFill.srcRect 4000 2000, ⟨0, 0, 1080, 1920⟩, false⟩]⟩)
    ∧ (CropFill.srcRect 4000 2000).width /
        (CropFill.srcRect 4000 2000).height = 1080 / 1920
    ∧ (if (4000 : ℚ) / 2000 > 1080 / 1920 then
        CropFill.srcRect 4000 2000 =
          ⟨((4000 : ℚ) - 2000 * (1080 / 1920)) / 2, 0,
            2000 * ((1080 : ℚ) / 1920), 2000⟩
      else
        CropFill.srcRect 4000 2000 =
          ⟨0, ((2000 : ℚ) - 4000 / (1080 / 1920)) / 2, 4000,
            4000 / ((1080 : ℚ) / 1920)⟩) :=
  cropFill_cover_selection 4000 2000 (by norm_num) (by norm_num)

/-- C2: blur-pad-fit mode: the foreground destination rectangle is contained
in the 1080-by-1920 canvas, spans its full width or full height, follows the
contain rule, and is centered; the background draw is offset by the blur
radius and oversized by twice the blur radius on each axis, and is drawn
before the foreground. -/
theorem blurPad_layout (w h : ℚ) (hw : 0 < w) (hh : 0 < h) :
    (0 ≤ (BlurPad.fgDestRect w h).x ∧ 0 ≤ (BlurPad.fgDestRect w h).y ∧
      (BlurPad.fgDestRect w h).x + (BlurPad.fgDestRect w h).width ≤ 1080 ∧
      (BlurPad.fgDestRect w h).y + (BlurPad.fgDestRect w h).height ≤ 1920)
    ∧ (((BlurPad.fgDestRect w h).x = 0 ∧
          (BlurPad.fgDestRect w h).width = 1080) ∨
        ((BlurPad.fgDestRect w h).y = 0 ∧
          (BlurPad.fgDestRect w h).height = 1920))
    ∧ (if w / h > 1080 / 1920 then
        (BlurPad.fgDestRect w h).width = 1080 ∧
          (BlurPad.fgDestRect w h).height = 1080 / (w / h)
      else
        (BlurPad.fgDestRect w h).height = 1920 ∧
          (BlurPad.fgDestRect w h).width = 1920 * (w / h))
    ∧ (BlurPad.fgDestRect w h).x = (1080 - (BlurPad.fgDestRect w h).width) / 2
    ∧ (BlurPad.fgDestRect w h).y =
        (1920 - (BlurPad.fgDestRect w h).height) / 2
    ∧ BlurPad.convertToStorySize true ⟨w, h⟩ =
        Except.ok ⟨1080, 1920,
          [⟨BlurPad.bgSrcRect w h, ⟨-30, -30, 1080 + 60, 1920 + 60⟩, true⟩,
            ⟨⟨0, 0, w, h⟩, BlurPad.fgDestRect w h, false⟩]⟩ := by
  have hwne : w ≠ 0 := ne_of_gt hw
  have hhne : h ≠ 0 := ne_of_gt hh
  have haspPos : 0 < w / h := div_pos hw hh
  have hcanvas : BlurPad.convertToStorySize true ⟨w, h⟩ =
      Except.ok ⟨1080, 1920,
        [⟨BlurPad.bgSrcRect w h, ⟨-30, -30, 1080 + 60, 1920 + 60⟩, true⟩,
          ⟨⟨0, 0, w, h⟩, BlurPad.fgDestRect w h, false⟩]⟩ := by
    simp only [BlurPad.convertToStorySize, OUTPUT_WIDTH, OUTPUT_HEIGHT,
      BLUR_AMOUNT, if_true]
    norm_num
  by_cases hc : w / h > (1080 : ℚ) / 1920
  · have hr : BlurPad.fgDestRect w h =
        ⟨0, (1920 - 1080 / (w / h)) / 2, 1080, 1080 / (w / h)⟩ := by
      simp only [BlurPad.fgDestRect, OUTPUT_WIDTH, OUTPUT_HEIGHT, if_pos hc]
      norm_num
    have hfh : (1080 : ℚ) / (w / h) < 1920 := by
      have h0 : (0 : ℚ) < 1080 / 1920 := by norm_num
      have := div_lt_div_of_pos_left (by norm_num : (0 : ℚ) < 1080) h0 hc
      calc (1080 : ℚ) / (w / h) < 1080 / (1080 / 1920) := this
        _ = 1920 := by norm_num
    have hfhpos : 0 < (1080 : ℚ) / (w / h) := div_pos (by norm_num) haspPos
    rw [hr] at hcanvas ⊢
    refine ⟨⟨?_, ?_, ?_, ?_⟩, Or.inl ⟨rfl, rfl⟩, ?_, ?_, ?_, hcanvas⟩
    · show (0 : ℚ) ≤ 0
      norm_num
    · show 0 ≤ ((1920 : ℚ) - 1080 / (w / h)) / 2
      linarith
    · show (0 : ℚ) + 1080 ≤ 1080
      norm_num
    · show ((1920 : ℚ) - 1080 / (w / h)) / 2 + 1080 / (w / h) ≤ 1920
      linarith
    · rw [if_pos hc]
      exact ⟨rfl, rfl⟩
    · show (0 : ℚ) = (1080 - 1080) / 2
      norm_num
    · rfl
  · have hr : BlurPad.fgDestRect w h =
        ⟨(1080 - 1920 * (w / h)) / 2, 0, 1920 * (w / h), 1920⟩ := by
      simp only [BlurPad.fgDestRect, OUTPUT_WIDTH, OUTPUT_HEIGHT, if_neg hc]
      norm_num
    have hfw : (1920 : ℚ) * (w / h) ≤ 1080 := by
      have hle : w / h ≤ 1080 / 1920 := le_of_not_lt hc
      calc (1920 : ℚ) * (w / h) ≤ 1920 * (1080 / 1920) :=
            mul_le_mul_of_nonneg_left hle (by norm_num)
        _ = 1080 := by norm_num
    have hfwpos : 0 < (1920 : ℚ) * (w / h) := by positivity
    rw [hr] at hcanvas ⊢
    refine ⟨⟨?_, ?_, ?_, ?_⟩, Or.inr ⟨rfl, rfl⟩, ?_, ?_, ?_, hcanvas⟩
    · show 0 ≤ ((1080 : ℚ) - 1920 * (w / h)) / 2
      linarith
    · show (0 : ℚ) ≤ 0
      norm_num
    · show ((1080 : ℚ) - 1920 * (w / h)) / 2 + 1920 * (w / h) ≤ 1080
      linarith
    · show (0 : ℚ) + 1920 ≤ 1920
      norm_num
    · rw [if_neg hc]
      exact ⟨rfl, rfl⟩
    · rfl
    · show (0 : ℚ) = (1920 - 1920) / 2
      norm_num

/-- Witness for C2 at a concrete 4000-by-2000 source. -/
theorem blurPad_layout_witness :
    (0 ≤ (BlurPad.fgDestRect 4000 2000).x ∧
      0 ≤ (BlurPad.fgDestRect 4000 2000).y ∧
      (BlurPad.fgDestRect 4000 2000).x +
        (BlurPad.fgDestRect 4000 2000).width ≤ 1080 ∧
      (BlurPad.fgDestRect 4000 2000).y +
        (BlurPad.fgDestRect 4000 2000).height ≤ 1920)
    ∧ (((BlurPad.fgDestRect 4000 2000).x = 0 ∧
          (BlurPad.fgDestRect 4000 2000).width = 1080) ∨
        ((BlurPad.fgDestRect 4000 2000).y = 0 ∧
          (BlurPad.fgDestRect 4000 2000).height = 1920))
    ∧ (if (4000 : ℚ) / 2000 > 1080 / 1920 then
        (BlurPad.fgDestRect 4000 2000).width = 1080 ∧
          (BlurPad.fgDestRect 4000 2000).height =
            1080 / ((4000 : ℚ) / 2000)
      else
        (BlurPad.fgDestRect 4000 2000).height = 1920 ∧
          (BlurPad.fgDestRect 4000 2000).width =
            1920 * ((4000 : ℚ) / 2000))
    ∧ (BlurPad.fgDestRect 4000 2000).x =
        (1080 - (BlurPad.fgDestRect 4000 2000).width) / 2
    ∧ (BlurPad.fgDestRect 4000 2000).y =
        (1920 - (BlurPad.fgDestRect 4000 2000).height) / 2
    ∧ BlurPad.convertToStorySize true ⟨4000, 2000⟩ =
        Except.ok ⟨1080, 1920,
          [⟨BlurPad.bgSrcRect 4000 2000,
              ⟨-30, -30, 1080 + 60, 1920 + 60⟩, true⟩,
            ⟨⟨0, 0, 4000, 2000⟩, BlurPad.fgDestRect 4000 2000, false⟩]⟩ :=
  blurPad_layout 4000 2000 (by norm_num) (by norm_num)

/-- C5: any non-null input whose size exceeds 10485760 bytes fails with
FILE_TOO_LARGE carrying the ceiling and the actual size, whatever the
declared MIME type and whatever happens downstream. -/
theorem convertImage_fileTooLarge (mode : Mode) (f : FileInput)
    (decodeResult : Except String Bitmap) (ctxOk encodeOk : Bool)
    (now : DateParts) (hsize : f.size > 10485760) :
    (convertImage mode (some f) decodeResult ctxOk encodeOk now).result =
      .failure (.FILE_TOO_LARGE 10485760 f.size) := by
  have hmax : MAX_FILE_SIZE = 10485760 := by norm_num [MAX_FILE_SIZE]
  simp only [convertImage, validateFile, hmax, if_pos hsize]

/-- Witness for C5: an 10485761-byte file with an allowed MIME type. -/
theorem convertImage_fileTooLarge_witness :
    (convertImage .cropFill (some ⟨10485761, "image/jpeg"⟩)
        (Except.error "not reached") true true
        ⟨2024, 2, 5, 9, 7, 2⟩).result =
      .failure (.FILE_TOO_LARGE 10485760 10485761) :=
  convertImage_fileTooLarge .cropFill ⟨10485761, "image/jpeg"⟩
    (Except.error "not reached") true true ⟨2024, 2, 5, 9, 7, 2⟩
    (by norm_num)

/-- C6: any non-null input within the size limit whose declared MIME type is
exactly neither image/jpeg nor image/png fails with INVALID_MIME_TYPE
carrying the allowed list and the actual type. -/
theorem convertImage_invalidMimeType (mode : Mode) (f : FileInput)
    (decodeResult : Except String Bitmap) (ctxOk encodeOk : Bool)
    (now : DateParts) (hsize : f.size ≤ 10485760)
    (hjpeg : f.type ≠ "image/jpeg") (hpng : f.type ≠ "image/png") :
    (convertImage mode (some f) decodeResult ctxOk encodeOk now).result =
      .failure (.INVALID_MIME_TYPE ["image/jpeg", "image/png"] f.type) := by
  have hmax : ¬ (f.size > MAX_FILE_SIZE) := by
    simp only [MAX_FILE_SIZE]
    omega
  have hmime : ¬ (ALLOWED_MIME_TYPES.contains f.type) := by
    simp [ALLOWED_MIME_TYPES, hjpeg, hpng]
  have hvf : validateFile f =
      some (.INVALID_MIME_TYPE ALLOWED_MIME_TYPES f.type) := by
    simp only [validateFile, if_neg hmax, if_pos hmime]
  simp only [convertImage, hvf, ALLOWED_MIME_TYPES]

/-- Witness for C6: a small file declared as image/webp. -/
theorem convertImage_invalidMimeType_witness :
    (convertImage .blurPadFit (some ⟨100, "image/webp"⟩)
        (Except.error "not reached") true true
        ⟨2024, 2, 5, 9, 7, 2⟩).result =
      .failure (.INVALID_MIME_TYPE ["image/jpeg", "image/png"]
        "image/webp") :=
  convertImage_invalidMimeType .blurPadFit ⟨100, "image/webp"⟩
    (Except.error "not reached") true true ⟨2024, 2, 5, 9, 7, 2⟩
    (by norm_num) (by decide) (by decide)

/-- C7: when a valid file decodes to a bitmap with a dimension above 4096,
convertImage fails with PIXEL_EXCEEDED carrying the ceiling and both actual
dimensions, the bitmap is closed exactly once, and the compositor is never
invoked. -/
theorem convertImage_pixelExceeded (mode : Mode) (f : FileInput)
    (bitmap : Bitmap) (ctxOk encodeOk : Bool) (now : DateParts)
    (hfile : validateFile f = none)
    (hdim : bitmap.width > 4096 ∨ bitmap.height > 4096) :
    convertImage mode (some f) (Except.ok bitmap) ctxOk encodeOk now =
      ⟨.failure (.PIXEL_EXCEEDED 4096 bitmap.width bitmap.height), 1,
        false⟩ := by
  have hmax : MAX_PIXEL_DIMENSION = 4096 := rfl
  have hguard : validateDimensions bitmap.width bitmap.height =
      some (.PIXEL_EXCEEDED 4096 bitmap.width bitmap.height) := by
    rw [validateDimensions, hmax, if_pos hdim]
  simp only [convertImage, hfile, hguard]

/-- Witness for C7: a valid small PNG decoding to a 5000-by-100 bitmap. -/
theorem convertImage_pixelExceeded_witness :
    convertImage .cropFill (some ⟨100, "image/png"⟩)
        (Except.ok ⟨5000, 100⟩) true true ⟨2024, 2, 5, 9, 7, 2⟩ =
      ⟨.failure (.PIXEL_EXCEEDED 4096 5000 100), 1, false⟩ :=
  convertImage_pixelExceeded .cropFill ⟨100, "image/png"⟩ ⟨5000, 100⟩
    true true ⟨2024, 2, 5, 9, 7, 2⟩ (by decide) (by norm_num)

/-- C3 failing path: with a valid file, a decodable in-range bitmap and no 2d
canvas context, convertImage (in either variant) returns CONVERSION_FAILED
while bitmap.close() is never called, so the decoded bitmap leaks on that
exit path. -/
theorem convertImage_leaks_bitmap_when_compositor_throws :
    (convertImage .cropFill (some ⟨100, "image/png"⟩)
        (Except.ok ⟨100, 100⟩) false true ⟨2024, 2, 5, 9, 7, 2⟩ =
      ⟨.failure (.CONVERSION_FAILED "Canvas context not available"), 0,
        true⟩)
    ∧ (convertImage .blurPadFit (some ⟨100, "image/png"⟩)
        (Except.ok ⟨100, 100⟩) false true ⟨2024, 2, 5, 9, 7, 2⟩ =
      ⟨.failure (.CONVERSION_FAILED "Canvas context not available"), 0,
        true⟩) := by
  constructor <;> rfl

/-- C10: the dimension guard accepts exactly the dimensions at most 4096 on
both axes (4096 itself included, with no lower bound), and every accepted
bitmap of a valid file reaches the compositor, which divides width by
height. -/
theorem validateDimensions_guard_iff (w h : ℚ) :
    (validateDimensions w h = none ↔ w ≤ 4096 ∧ h ≤ 4096)
    ∧ (w ≤ 4096 → h ≤ 4096 →
        ∀ (mode : Mode) (f : FileInput) (encodeOk : Bool) (now : DateParts),
          validateFile f = none →
          (convertImage mode (some f) (Except.ok ⟨w, h⟩) true encodeOk
            now).compositorInvoked = true) := by
  have hmax : MAX_PIXEL_DIMENSION = 4096 := rfl
  have hiff : validateDimensions w h = none ↔ w ≤ 4096 ∧ h ≤ 4096 := by
    rw [validateDimensions, hmax]
    by_cases hcond : w > (4096 : ℚ) ∨ h > 4096
    · rw [if_pos hcond]
      constructor
      · intro hsome
        exact Option.noConfusion hsome
      · rintro ⟨hw2, hh2⟩
        rcases hcond with hc | hc
        · exact absurd hc (not_lt.mpr hw2)
        · exact absurd hc (not_lt.mpr hh2)
    · rw [if_neg hcond]
      push_neg at hcond
      exact iff_of_true rfl hcond
  refine ⟨hiff, fun hw hh mode f encodeOk now hfile => ?_⟩
  have hguard : validateDimensions w h = none := hiff.mpr ⟨hw, hh⟩
  cases mode <;>
    simp only [convertImage, hfile, hguard, composite,
      CropFill.convertToStorySize, BlurPad.convertToStorySize, if_true] <;>
    split <;> rfl

/-- Witness for C10: the boundary dimension 4096 is accepted, and a bitmap
with a negative height still reaches the compositor. -/
theorem validateDimensions_guard_iff_witness :
    (validateDimensions 4096 (-5) = none)
    ∧ (convertImage .cropFill (some ⟨100, "image/png"⟩)
        (Except.ok ⟨4096, -5⟩) true true
        ⟨2024, 2, 5, 9, 7, 2⟩).compositorInvoked = true :=
  ⟨(validateDimensions_guard_iff 4096 (-5)).1.mpr (by norm_num),
    (validateDimensions_guard_iff 4096 (-5)).2 (by norm_num) (by norm_num)
      Mode.cropFill (FileInput.mk 100 "image/png") true
      (DateParts.mk 2024 2 5 9 7 2) (by decide)⟩

/-- Length of the digit accumulator of the decimal printer, for sufficient
fuel: one character per decimal digit plus the accumulator. -/
theorem toDigitsCore_len (fuel : ℕ) : ∀ (n : ℕ) (l : List Char),
    n < fuel →
    (Nat.toDigitsCore 10 fuel n l).length = Nat.log 10 n + 1 + l.length := by
  induction fuel with
  | zero =>
    intro n l hn
    exact absurd hn (Nat.not_lt_zero n)
  | succ fuel ih =>
    intro n l hn
    simp only [Nat.toDigitsCore]
    by_cases h0 : n / 10 = 0
    · have hlt : n < 10 := by
        have := (Nat.div_eq_zero_iff (by norm_num : 0 < 10)).mp h0
        omega
      rw [if_pos h0, Nat.log_of_lt hlt]
      simp [Nat.add_comm]
    · have hpos : 0 < n := by
        rcases Nat.eq_zero_or_pos n with hz | hp
        · exact absurd (by simp [hz]) h0
        · exact hp
      have h10 : 10 ≤ n := by
        by_contra hlt10
        push_neg at hlt10
        exact h0 (Nat.div_eq_of_lt hlt10)
      have hlt : n / 10 < fuel :=
        lt_of_lt_of_le (Nat.div_lt_self hpos (by norm_num))
          (Nat.lt_succ_iff.mp hn)
      rw [if_neg h0, ih (n / 10) (Nat.digitChar (n % 10) :: l) hlt,
        Nat.log_div_base]
      have hlog : 0 < Nat.log 10 n := Nat.log_pos (by norm_num) h10
      simp only [List.length_cons]
      omega

/-- Decimal representation length equals the number of decimal digits. -/
theorem repr_len (n : ℕ) : (Nat.repr n).length = Nat.log 10 n + 1 := by
  show (Nat.toDigitsCore 10 (n + 1) n []).length = Nat.log 10 n + 1
  rw [toDigitsCore_len (n + 1) n [] (Nat.lt_succ_self n)]
  simp

/-- Four-digit years print as four characters. -/
theorem repr_year_len (y : ℕ) (h1 : 1000 ≤ y) (h2 : y ≤ 9999) :
    (Nat.repr y).length = 4 := by
  rw [repr_len]
  have hlog : Nat.log 10 y = 3 :=
    Nat.log_eq_of_pow_le_of_lt_pow (by norm_num; omega) (by norm_num; omega)
  omega

set_option maxRecDepth 4000 in
/-- The padStart-based field printer agrees with the spec's two-digit
zero-padded field on values below one hundred. -/
theorem pad_eq_twoDigitField : ∀ n, n < 100 → pad n = twoDigitField n := by
  decide

set_option maxRecDepth 4000 in
/-- Two-digit fields have length two below one hundred. -/
theorem twoDigitField_len : ∀ n, n < 100 → (twoDigitField n).length = 2 := by
  decide

/-- C9: generateFilename produces story_ followed by the four-digit year,
two-digit zero-padded month, day, an underscore, two-digit zero-padded hour,
minute and second, then .jpg. -/
theorem generateFilename_format (d : DateParts)
    (hy : 1000 ≤ d.year) (hy2 : d.year ≤ 9999) (hm : d.month0 < 12)
    (hd : d.day ≤ 31) (hh : d.hour < 24) (hmin : d.minute < 60)
    (hs : d.second < 60) :
    generateFilename d =
      "story_" ++ Nat.repr d.year ++ twoDigitField (d.month0 + 1)
        ++ twoDigitField d.day ++ "_" ++ twoDigitField d.hour
        ++ twoDigitField d.minute ++ twoDigitField d.second ++ ".jpg"
    ∧ (Nat.repr d.year).length = 4
    ∧ (twoDigitField (d.month0 + 1)).length = 2
    ∧ (twoDigitField d.day).length = 2
    ∧ (twoDigitField d.hour).length = 2
    ∧ (twoDigitField d.minute).length = 2
    ∧ (twoDigitField d.second).length = 2 := by
  refine ⟨?_, repr_year_len d.year hy hy2,
    twoDigitField_len (d.month0 + 1) (by omega),
    twoDigitField_len d.day (by omega), twoDigitField_len d.hour (by omega),
    twoDigitField_len d.minute (by omega),
    twoDigitField_len d.second (by omega)⟩
  simp only [generateFilename,
    pad_eq_twoDigitField (d.month0 + 1) (by omega),
    pad_eq_twoDigitField d.day (by omega),
    pad_eq_twoDigitField d.hour (by omega),
    pad_eq_twoDigitField d.minute (by omega),
    pad_eq_twoDigitField d.second (by omega)]
  simp [String.append_assoc]

/-- Witness for C9 at the fixed instant 2024-03-05 09:07:02 local time
(month0 2 is March): the filename is story_20240305_090702.jpg. -/
theorem generateFilename_format_witness :
    generateFilename ⟨2024, 2, 5, 9, 7, 2⟩ = "story_20240305_090702.jpg" :=
  ((generateFilename_format ⟨2024, 2, 5, 9, 7, 2⟩ (by norm_num)
      (by norm_num) (by norm_num) (by norm_num) (by norm_num) (by norm_num)
      (by norm_num)).1).trans (by decide)

end StoryImage
